import Mathlib

/-!
Shallow embedding of the Market Analysis Engine of the
`futures-market-tracker` repository, together with proofs checking the
natural-language specification against the code.

Numbers are modelled as exact rationals (`ℚ`), giving the idealised
real-number semantics of the JavaScript arithmetic.  Where the source calls
the transcendental primitives `Math.log` / `Math.sqrt`, the embedded
function takes the primitive as an explicit parameter `(log sq : ℚ → ℚ)`;
theorems constrain the parameter only by facts true of the real functions
(for example `log 1 = 0`).  Division by zero follows Lean's `x / 0 = 0`
convention; wherever a JavaScript `NaN` could flow into a result field the
embedding uses `Option` instead (see `calculateTrendConfidence`).
-/

/-- OHLCV candle, `KlineData` from `client/src/utils/types.ts`
(the `open` field is renamed `openPrice` because `open` is a Lean keyword). -/
structure KlineData where
  timestamp : ℚ
  openPrice : ℚ
  high : ℚ
  low : ℚ
  close : ℚ
  volume : ℚ
  deriving DecidableEq, Inhabited

/-- Per-timeframe configuration, `TimeframeConfig` from
`client/src/utils/types.ts` (the fields used by the embedded functions). -/
structure TimeframeConfig where
  interval : String
  seconds : ℚ
  threshold : ℚ
  volatilityMultiplier : ℚ
  volatilityThreshold : ℚ
  maxDrawdown : ℚ
  deriving DecidableEq, Inhabited

/-- Volume trend tag, the `"increasing" | "decreasing" | "stable"` union. -/
inductive VolumeTrend where
  | increasing
  | decreasing
  | stable
  deriving DecidableEq, Inhabited

/-- The `volumeProfile` component of `MarketMetrics`. -/
structure VolumeProfile where
  value : ℚ
  trend : VolumeTrend
  deriving DecidableEq, Inhabited

/-- The `momentum` component of `MarketMetrics` (RSI at three horizons). -/
structure Momentum where
  shortTerm : ℚ
  mediumTerm : ℚ
  longTerm : ℚ
  deriving DecidableEq, Inhabited

/-- `MarketMetrics` as produced by
`MarketMetricsCalculator.calculateMarketMetrics` in
`client/src/services/MaketSignalDetector.ts`. -/
structure MarketMetrics where
  lastUpdate : ℚ
  priceChange : ℚ
  volatility : ℚ
  drawdown : ℚ
  volumeProfile : VolumeProfile
  momentum : Momentum
  deriving DecidableEq, Inhabited

/-- Trend classification tag, the `"bullish" | "bearish" | "neutral"` union. -/
inductive TrendType where
  | bullish
  | bearish
  | neutral
  deriving DecidableEq, Inhabited

/-- Evidence tags, the `TrendReason` string union used by
`TrendReasonDetector` (`client/src/services/TrendReasonDetector.tsx`). -/
inductive TrendReason where
  | short_term_momentum
  | medium_term_momentum
  | long_term_momentum
  | RSI_overbought
  | RSI_oversold
  | RSI_stable
  | price_increase
  | price_decrease
  | recent_price_change
  | significant_price_change
  | increasing_volume
  | decreasing_volume
  | strong_volume
  | weak_volume
  | stable_volume
  | low_volatility
  | high_volatility
  | uptrend_support
  | downtrend_support
  | drawdown_low
  | drawdown_high
  | bullish_candlestick
  | bearish_candlestick
  | momentum_shift
  | uptrend
  | downtrend
  | neutral_trend
  | sideways_trend
  deriving DecidableEq, Inhabited

/-- A trend classification with its evidence tags, the
`{ trend, reasons }` object. -/
structure Trend where
  trend : TrendType
  reasons : List TrendReason
  deriving DecidableEq, Inhabited

/-- The `components` record of a `TimeframeSignal`. -/
structure SignalComponents where
  price : ℚ
  volume : ℚ
  trend : Trend
  priceChangePercent : ℚ
  deriving DecidableEq, Inhabited

/-- `TimeframeSignal` from `client/src/utils/types.ts`. -/
structure TimeframeSignal where
  timeframe : String
  strength : ℚ
  confirmedAt : ℚ
  priceAtSignal : ℚ
  components : SignalComponents
  deriving DecidableEq, Inhabited

/-- `MarketSignal` as constructed by
`MarketSignalDetector.generateMarketSignal`.  The `trendConsistency`
field is an `Option ℚ`: the code computes `bullish/(bullish+bearish)`,
which is the JavaScript `NaN` when there is no non-neutral signal;
`none` models that `NaN`. -/
structure MarketSignal where
  symbol : String
  timestamp : ℚ
  signals : List TimeframeSignal
  overallStrength : ℚ
  isValid : Bool
  volatilityProfile : String
  trendConsistency : Option ℚ
  overallTrend : TrendType
  deriving DecidableEq, Inhabited

namespace MarketMetricsCalculator

/-- `MarketMetricsCalculator.calculatePriceChange`
(`client/src/services/MarketMetricsCalculator.ts`, lines 4-9):
`((close[last] - close[first]) / close[first]) * 100`, `0` when fewer
than two candles. -/
def calculatePriceChange (klines : List KlineData) : ℚ :=
  if klines.length < 2 then 0
  else
    let startPrice := (klines.headD default).close
    let endPrice := (klines.getLastD default).close
    (endPrice - startPrice) / startPrice * 100

/-- `MarketMetricsCalculator.calculateMovingAverage`
(`client/src/services/MarketMetricsCalculator.ts`, lines 33-40): the
window of index `i` runs over `data.slice(i - period + 1, i + 1)` for
`i = period - 1 .. data.length - 1`; re-indexed by the window start `j`,
there are `data.length + 1 - period` windows of `period` elements each,
every one summed and divided by `period`.  (The second copy of the
calculator in `MaketSignalDetector.ts` adds an early `[]` return for
`period <= 0` or empty data; for every call site `period ≥ 1`, where the
two versions agree with this definition.) -/
def calculateMovingAverage (data : List ℚ) (period : ℕ) : List ℚ :=
  (List.range (data.length + 1 - period)).map
    (fun j => ((data.drop j).take period).sum / (period : ℚ))

/-- Consecutive price deltas: `prices.slice(1).map((price, i) => price - prices[i])`. -/
def rsiChanges (prices : List ℚ) : List ℚ :=
  List.zipWith (fun a b => b - a) prices prices.tail

/-- The gain series of `calculateRSI`: `change > 0 ? change : 0`. -/
def rsiGains (prices : List ℚ) : List ℚ :=
  (rsiChanges prices).map (fun change => if change > 0 then change else 0)

/-- The loss series of `calculateRSI`: `change < 0 ? -change : 0`. -/
def rsiLosses (prices : List ℚ) : List ℚ :=
  (rsiChanges prices).map (fun change => if change < 0 then -change else 0)

/-- `avgGain` of `calculateRSI`: the `.pop() || 0` of the gain moving
average (last element, `0` when the moving-average list is empty). -/
def rsiAvgGain (prices : List ℚ) (period : ℕ) : ℚ :=
  ((calculateMovingAverage (rsiGains prices) period).getLast?).getD 0

/-- `avgLoss` of `calculateRSI`, symmetric to `rsiAvgGain`. -/
def rsiAvgLoss (prices : List ℚ) (period : ℕ) : ℚ :=
  ((calculateMovingAverage (rsiLosses prices) period).getLast?).getD 0

/-- `MarketMetricsCalculator.calculateRSI`
(`client/src/services/MarketMetricsCalculator.ts`, lines 20-31):
`100` when `avgLoss` is `0`, otherwise `100 - 100/(1 + avgGain/avgLoss)`. -/
def calculateRSI (prices : List ℚ) (period : ℕ) : ℚ :=
  if rsiAvgLoss prices period = 0 then 100
  else 100 - 100 / (1 + rsiAvgGain prices period / rsiAvgLoss prices period)

/-- `MarketMetricsCalculator.calculateDrawdown`
(`client/src/services/MaketSignalDetector.ts`, lines 463-476): fold over
all candles carrying `(maxPrice, maxDrawdown)`, starting from
`(klines[0].high, 0)`. -/
def drawdownStep (acc : ℚ × ℚ) (kline : KlineData) : ℚ × ℚ :=
  let maxPrice := max acc.1 kline.high
  let currentDrawdown := (maxPrice - kline.low) / maxPrice * 100
  (maxPrice, max acc.2 currentDrawdown)

/-- The body of `calculateDrawdown` as a left fold (see `drawdownStep`). -/
def calculateDrawdown (klines : List KlineData) : ℚ :=
  if klines.length < 2 then 0
  else
    match klines with
    | [] => 0
    | k0 :: _ => (klines.foldl drawdownStep (k0.high, 0)).2

/-- The log-return series of `MarketMetricsCalculator.calculateVolatility`
(`client/src/services/MaketSignalDetector.ts`, lines 352-356): for each
consecutive pair, `0` when the previous close is `0` (the division-by-zero
guard substitutes the value `0`, it does not drop the entry), otherwise
`log(close / prevClose)`.  `log` is the `Math.log` primitive, taken as a
parameter. -/
def volatilityReturns (log : ℚ → ℚ) (klines : List KlineData) : List ℚ :=
  List.zipWith
    (fun prev kline => if prev.close = 0 then 0 else log (kline.close / prev.close))
    klines klines.tail

/-- `MarketMetricsCalculator.calculateVolatility`
(`client/src/services/MaketSignalDetector.ts`, lines 349-364): mean and
population variance of the return series, then
`sqrt(variance) * sqrt(periodsPerYear) * 100`.  `log` and `sq` are the
`Math.log` / `Math.sqrt` primitives, taken as parameters. -/
def calculateVolatility (log sq : ℚ → ℚ) (klines : List KlineData)
    (timeframeConfig : TimeframeConfig) : ℚ :=
  if klines.length < 2 then 0
  else
    let returns := volatilityReturns log klines
    let mean := returns.sum / (returns.length : ℚ)
    let variance := (returns.map (fun r => (r - mean) ^ 2)).sum / (returns.length : ℚ)
    let periodsPerYear := (365 * 24 * 60 * 60 : ℚ) / timeframeConfig.seconds
    sq variance * sq periodsPerYear * 100

/-- `MarketMetricsCalculator.getVolumeLookbackPeriods`
(`client/src/services/MaketSignalDetector.ts`, lines 403-416). -/
def getVolumeLookbackPeriods (timeframe : String) : ℕ :=
  if timeframe = "5m" then 12
  else if timeframe = "1h" then 6
  else if timeframe = "4h" then 6
  else if timeframe = "1d" then 5
  else 5

/-- `MarketMetricsCalculator.calculateVolumeProfile`
(`client/src/services/MaketSignalDetector.ts`, lines 379-401): average of
the trailing volumes and an increasing/decreasing/stable classification of
the percentage change from the first to the last trailing volume against
`5 * volatilityMultiplier`. -/
def calculateVolumeProfile (klines : List KlineData)
    (timeframeConfig : TimeframeConfig) : VolumeProfile :=
  let periodsToAnalyze := getVolumeLookbackPeriods timeframeConfig.interval
  let recentVolumes := (klines.drop (klines.length - periodsToAnalyze)).map (·.volume)
  if recentVolumes.length < 2 then
    { value := recentVolumes.headD 0, trend := .stable }
  else
    let avgVolume := (calculateMovingAverage recentVolumes recentVolumes.length).headD 0
    let volumeChange :=
      ((recentVolumes.getLastD 0) - recentVolumes.headD 0) / recentVolumes.headD 0 * 100
    let changeThreshold := 5 * timeframeConfig.volatilityMultiplier
    { value := avgVolume
      trend :=
        if volumeChange > changeThreshold then .increasing
        else if volumeChange < -changeThreshold then .decreasing
        else .stable }

/-- `MarketMetricsCalculator.calculateMarketMetrics`
(`client/src/services/MaketSignalDetector.ts`, lines 478-501): price
change, volatility, drawdown, RSI momentum at periods 14/30/50 over the
closes, and the volume profile.  `now` stands for the `Date.now()` read
into `lastUpdate`. -/
def calculateMarketMetrics (log sq : ℚ → ℚ) (now : ℚ) (klines : List KlineData)
    (config : TimeframeConfig) : MarketMetrics :=
  let closes := klines.map (·.close)
  { lastUpdate := now
    priceChange := calculatePriceChange klines
    volatility := calculateVolatility log sq klines config
    drawdown := calculateDrawdown klines
    volumeProfile := calculateVolumeProfile klines config
    momentum :=
      { shortTerm := calculateRSI closes 14
        mediumTerm := calculateRSI closes 30
        longTerm := calculateRSI closes 50 } }

end MarketMetricsCalculator

namespace TrendReasonDetector

/-- `TrendReasonDetector.detectBullishReasons`
(`client/src/services/TrendReasonDetector.tsx`, lines 4-62); the trailing
`[...new Set(reasons)]` deduplication is kept as `List.dedup`. -/
def detectBullishReasons (metrics : MarketMetrics) (klines : List KlineData) :
    List TrendReason :=
  let lastCandle := klines.getLastD default
  let prevCandle := (klines.drop (klines.length - 2)).headD default
  ((if metrics.momentum.shortTerm > 70 then
      [TrendReason.short_term_momentum, TrendReason.RSI_overbought] else []) ++
   (if metrics.momentum.mediumTerm > 65 then [TrendReason.medium_term_momentum] else []) ++
   (if metrics.momentum.longTerm > 60 then [TrendReason.long_term_momentum] else []) ++
   (if metrics.priceChange > 0 then
      [TrendReason.price_increase, TrendReason.recent_price_change] ++
      (if |metrics.priceChange| > 5 then [TrendReason.significant_price_change] else [])
    else []) ++
   (if metrics.volumeProfile.trend = .increasing then
      [TrendReason.increasing_volume, TrendReason.strong_volume] else []) ++
   (if metrics.volatility < 1/5 then
      [TrendReason.low_volatility, TrendReason.uptrend_support] else []) ++
   (if metrics.drawdown < 0 then [TrendReason.drawdown_low] else []) ++
   (if lastCandle.close > lastCandle.openPrice ∧ prevCandle.close < prevCandle.openPrice then
      [TrendReason.bullish_candlestick] else []) ++
   (if metrics.momentum.shortTerm > metrics.momentum.mediumTerm then
      [TrendReason.momentum_shift] else []) ++
   [TrendReason.uptrend]).dedup

/-- `TrendReasonDetector.detectBearishReasons`
(`client/src/services/TrendReasonDetector.tsx`, lines 64-117). -/
def detectBearishReasons (metrics : MarketMetrics) (klines : List KlineData) :
    List TrendReason :=
  let lastCandle := klines.getLastD default
  let prevCandle := (klines.drop (klines.length - 2)).headD default
  ((if metrics.momentum.shortTerm < 30 then
      [TrendReason.short_term_momentum, TrendReason.RSI_oversold] else []) ++
   (if metrics.momentum.mediumTerm < 35 then [TrendReason.momentum_shift] else []) ++
   (if metrics.momentum.longTerm < 40 then [TrendReason.long_term_momentum] else []) ++
   (if metrics.priceChange < 0 then
      [TrendReason.price_decrease, TrendReason.recent_price_change] ++
      (if |metrics.priceChange| > 5 then [TrendReason.significant_price_change] else [])
    else []) ++
   (if metrics.volumeProfile.trend = .decreasing then
      [TrendReason.decreasing_volume, TrendReason.weak_volume] else []) ++
   (if metrics.volatility > 1/5 then
      [TrendReason.high_volatility, TrendReason.downtrend_support] else []) ++
   (if metrics.drawdown > 0 then [TrendReason.drawdown_high] else []) ++
   (if lastCandle.close < lastCandle.openPrice ∧ prevCandle.close > prevCandle.openPrice then
      [TrendReason.bearish_candlestick] else []) ++
   [TrendReason.downtrend]).dedup

/-- `TrendReasonDetector.detectNeutralReasons`
(`client/src/services/TrendReasonDetector.tsx`, lines 119-139). -/
def detectNeutralReasons (metrics : MarketMetrics) : List TrendReason :=
  (if 40 ≤ metrics.momentum.shortTerm ∧ metrics.momentum.shortTerm ≤ 60 then
     [TrendReason.RSI_stable, TrendReason.neutral_trend] else []) ++
  (if metrics.volumeProfile.trend = .stable then [TrendReason.stable_volume] else []) ++
  (if |metrics.priceChange| < 1 then [TrendReason.sideways_trend] else [])

end TrendReasonDetector

namespace MarketSignalDetector
open MarketMetricsCalculator TrendReasonDetector

/-- `MarketSignalDetector.detectCandlestickPatterns`
(`client/src/services/MaketSignalDetector.ts`, lines 113-140):
engulfing/star checks on the last two or three candles.  The JavaScript
indexes `klines[klines.length - 1]` and `klines[klines.length - 2]`
unconditionally, so this embedding is faithful only for windows of at
least two candles (every theorem below assumes that). -/
def detectCandlestickPatterns (klines : List KlineData) : List TrendReason :=
  let n := klines.length
  let last := klines.getLastD default
  let prev := (klines.drop (n - 2)).headD default
  let third := (klines.drop (n - 3)).headD default
  let isBullishEngulfing :=
    prev.close < prev.openPrice ∧ last.close > prev.openPrice ∧ last.openPrice < prev.close
  let isMorningStar :=
    3 ≤ n ∧ third.close < third.openPrice ∧ prev.close < prev.openPrice ∧
      last.close > last.openPrice
  let isBearishEngulfing :=
    prev.close > prev.openPrice ∧ last.close < prev.openPrice ∧ last.openPrice > prev.close
  let isEveningStar :=
    3 ≤ n ∧ third.close > third.openPrice ∧ prev.close > prev.openPrice ∧
      last.close < last.openPrice
  (if isBullishEngulfing then [TrendReason.bullish_candlestick] else []) ++
  (if isMorningStar then [TrendReason.bullish_candlestick] else []) ++
  (if isBearishEngulfing then [TrendReason.bearish_candlestick] else []) ++
  (if isEveningStar then [TrendReason.bearish_candlestick] else [])

/-- The accumulated `trendScores.bullish` and `trendScores.bearish` of
`MarketSignalDetector.scoreTrend`
(`client/src/services/MaketSignalDetector.ts`, lines 142-186), written as
the sum of the individual contributions in source order: weighted RSI
bands (3/2/1), volume-trend (+2), the absolute price change added to the
side of its sign, the symmetric volatility penalty (−1 when volatility
exceeds 0.2), and the candlestick-pattern bonus (+2).
`trendScores.neutral` is never incremented and stays `0`. -/
def trendScoresOf (metrics : MarketMetrics) (klines : List KlineData) : ℚ × ℚ :=
  let candlestickPatterns := detectCandlestickPatterns klines
  let volatilityPenalty : ℚ := if metrics.volatility > 1/5 then 1 else 0
  ((if metrics.momentum.shortTerm > 70 then 3 else 0) +
   (if metrics.momentum.mediumTerm > 65 then 2 else 0) +
   (if metrics.momentum.longTerm > 60 then 1 else 0) +
   (if metrics.volumeProfile.trend = .increasing then 2 else 0) +
   (if metrics.priceChange > 0 then |metrics.priceChange| else 0) -
   volatilityPenalty +
   (if TrendReason.bullish_candlestick ∈ candlestickPatterns then 2 else 0),
   (if metrics.momentum.shortTerm < 30 then 3 else 0) +
   (if metrics.momentum.mediumTerm < 35 then 2 else 0) +
   (if metrics.momentum.longTerm < 40 then 1 else 0) +
   (if metrics.volumeProfile.trend = .decreasing then 2 else 0) +
   (if metrics.priceChange < 0 then |metrics.priceChange| else 0) -
   volatilityPenalty +
   (if TrendReason.bearish_candlestick ∈ candlestickPatterns then 2 else 0))

/-- `MarketSignalDetector.scoreTrend`
(`client/src/services/MaketSignalDetector.ts`, lines 142-207):
`maxScore = max(bullish, bearish, neutral)` with `neutral = 0`; bullish
when `bullish === maxScore && bullish > 3`, else bearish when
`bearish === maxScore && bearish > 3`, else neutral. -/
def scoreTrend (metrics : MarketMetrics) (klines : List KlineData) : Trend :=
  let candlestickPatterns := detectCandlestickPatterns klines
  let scores := trendScoresOf metrics klines
  let maxScore := max scores.1 (max scores.2 0)
  if scores.1 = maxScore ∧ scores.1 > 3 then
    { trend := .bullish
      reasons := detectBullishReasons metrics klines ++ candlestickPatterns }
  else if scores.2 = maxScore ∧ scores.2 > 3 then
    { trend := .bearish
      reasons := detectBearishReasons metrics klines ++ candlestickPatterns }
  else
    { trend := .neutral, reasons := detectNeutralReasons metrics }

/-- `CONFIG.VOLATILITY_PROFILES` (`src/unnamed/part_005`):
`LOW = 0.2`, `MEDIUM = 0.5`, `HIGH = 0.8`. -/
def volatilityProfileLow : ℚ := 1/5

/-- `CONFIG.VOLATILITY_PROFILES.MEDIUM`. -/
def volatilityProfileMedium : ℚ := 1/2

/-- `CONFIG.VOLATILITY_PROFILES.HIGH`. -/
def volatilityProfileHigh : ℚ := 4/5

/-- `MarketSignalDetector.determineVolatilityProfile`
(`client/src/services/MaketSignalDetector.ts`, lines 330-337). -/
def determineVolatilityProfile (strength : ℚ) : String :=
  if strength < volatilityProfileLow then "low"
  else if strength < volatilityProfileMedium then "medium"
  else if strength < volatilityProfileHigh then "high"
  else "extreme"

/-- The per-trend partition built by the `signals.reduce` in
`MarketSignalDetector.generateMarketSignal`
(`client/src/services/MaketSignalDetector.ts`, lines 257-277). -/
def signalsWithTrend (signals : List TimeframeSignal) (t : TrendType) :
    List TimeframeSignal :=
  signals.filter (fun signal => signal.components.trend.trend = t)

/-- `MarketSignalDetector.calculateTrendConfidence`
(`client/src/services/MaketSignalDetector.ts`, lines 320-328):
`bullish/(bullish+bearish)` when that ratio exceeds `0.5`, else one minus
it.  When there is no non-neutral signal the JavaScript computes `0/0 =
NaN` (and every later `NaN` comparison is false); that case is modelled
as `none`. -/
def calculateTrendConfidence (bullishSignals bearishSignals : List TimeframeSignal) :
    Option ℚ :=
  let totalSignals := bullishSignals.length + bearishSignals.length
  if totalSignals = 0 then none
  else
    let bullishShare := (bullishSignals.length : ℚ) / (totalSignals : ℚ)
    some (if bullishShare > 1/2 then bullishShare else 1 - bullishShare)

/-- `MarketSignalDetector.determineOverallTrend`
(`client/src/services/MaketSignalDetector.ts`, lines 304-318). -/
def determineOverallTrend (signals : List TimeframeSignal) : TrendType :=
  let bullishCount := (signalsWithTrend signals .bullish).length
  let bearishCount := (signalsWithTrend signals .bearish).length
  let neutralCount := (signalsWithTrend signals .neutral).length
  if bullishCount > bearishCount ∧ bullishCount > neutralCount then .bullish
  else if bearishCount > bullishCount ∧ bearishCount > neutralCount then .bearish
  else .neutral

/-- `MarketSignalDetector.generateMarketSignal`
(`client/src/services/MaketSignalDetector.ts`, lines 254-302): partitions
the signals by trend, takes bullish strength minus bearish strength,
`isValid = trendConfidence > 0.5` (false when the confidence is the
JavaScript `NaN`, modelled as `none`), and stamps the result with
`Date.now()`, taken as the explicit parameter `now`. -/
def generateMarketSignal (signals : List TimeframeSignal) (symbol : String)
    (now : ℚ) : Option MarketSignal :=
  if signals.length = 0 then none
  else
    let bullishSignals := signalsWithTrend signals .bullish
    let bearishSignals := signalsWithTrend signals .bearish
    let overallStrength :=
      (bullishSignals.map (·.strength)).sum - (bearishSignals.map (fun s => |s.strength|)).sum
    let trendConfidence := calculateTrendConfidence bullishSignals bearishSignals
    some
      { symbol := symbol
        timestamp := now
        signals := signals
        overallStrength := overallStrength
        isValid := match trendConfidence with
          | none => false
          | some c => decide (c > 1/2)
        volatilityProfile := determineVolatilityProfile |overallStrength|
        trendConsistency := trendConfidence
        overallTrend := determineOverallTrend signals }

end MarketSignalDetector

/-- Breakout magnitude bucket, the non-null part of the
`"short" | "medium" | "large" | "extreme" | null` return type of
`BreakoutDetector.getBreakoutThreshold`. -/
inductive BreakoutBucket where
  | short
  | medium
  | large
  | extreme
  deriving DecidableEq, Inhabited

/-- The `volumeProfile` component of a `BreakoutAlert`. -/
structure AlertVolumeProfile where
  current : ℚ
  trend : VolumeTrend
  deriving DecidableEq, Inhabited

/-- `BreakoutAlert` from `client/src/utils/types.ts` (lines 129-147).
The declared type of `breakoutType` is
`"short" | "medium" | "large" | "extreme"`, with no `null`; the field is
embedded as `Option BreakoutBucket` because the `BreakoutDetector` in
`src/unnamed/part_013` in fact stores the nullable result of
`getBreakoutThreshold` into it (see the C3 theorems below). -/
structure BreakoutAlert where
  symbol : String
  timestamp : ℚ
  breakoutType : Option BreakoutBucket
  currentPrice : ℚ
  priceAtBreakout : ℚ
  percentageMove : ℚ
  timeframe : String
  direction : TrendType
  trend : TrendType
  volumeProfile : AlertVolumeProfile
  momentum : Momentum
  deriving DecidableEq, Inhabited

/-- Modelled from the spec: `BREAKOUT_CONFIG` is imported from
`../utils/constants` but that constants module is not among the source
files; only its consumers are.  The spec (§4.3) requires ascending fixed
magnitude thresholds, a volume multiplier, a volatility-expansion
threshold and a per-symbol cooldown window; `BreakoutConfig` in
`client/src/utils/types.ts` documents the thresholds as
"e.g., 3% / 5% / 7% / 10%" and the alert cooldown used elsewhere in the
repository is 900000 ms. -/
structure BreakoutConfig where
  thresholdShort : ℚ := 3
  thresholdMedium : ℚ := 5
  thresholdLarge : ℚ := 7
  thresholdExtreme : ℚ := 10
  cooldown : ℚ := 900000
  volumeMultiplier : ℚ := 2
  volatilityExpansionThreshold : ℚ := 1005/1000
  deriving DecidableEq, Inhabited

/-- Modelled from the spec: the concrete `BREAKOUT_CONFIG` value (see
`BreakoutConfig`). -/
def BREAKOUT_CONFIG : BreakoutConfig := {}

/-- Modelled from the spec:
`CONFIG.MARKET_ANALYSIS.INDICATOR_THRESHOLDS.BOLLINGER_PERIOD` is read
from the missing constants module; the spec (§4.3) calls for a
Bollinger-style channel over a fixed lookback, for which the standard
period 20 is used. -/
def BOLLINGER_PERIOD : ℕ := 20

/-- Modelled from the spec:
`CONFIG.MARKET_ANALYSIS.INDICATOR_THRESHOLDS.BOLLINGER_STD`, the
`k` of the moving-average ± k·stddev band; the standard value 2 is used. -/
def BOLLINGER_STD : ℚ := 2

/-- Modelled from the spec:
`CONFIG.MARKET_ANALYSIS.INDICATOR_THRESHOLDS.VOLUME_MA_PERIOD`, the
lookback of the volume moving average; 20 is used. -/
def VOLUME_MA_PERIOD : ℕ := 20

/-- Maximum of a list, `0` on the empty list (the embedded lists are
always non-empty where this is used). -/
def listMax (l : List ℚ) : ℚ :=
  match l with
  | [] => 0
  | x :: xs => xs.foldl max x

/-- Minimum of a list, `0` on the empty list. -/
def listMin (l : List ℚ) : ℚ :=
  match l with
  | [] => 0
  | x :: xs => xs.foldl min x

namespace MarketDataService

/-- `MarketDataService.determineTrend`
(`client/src/services/MarketDataService.ts`, lines 586-635): weighted
bull/bear scores from RSI bands (1/1.5/2), volume trend (±1), the price
change capped at ±2, and a symmetric 0.5 volatility penalty; bullish when
the net score exceeds 2, bearish when below −2, else neutral. -/
def determineTrend (metrics : MarketMetrics) : Trend :=
  let bullishScore :=
    (if metrics.momentum.shortTerm > 70 then (1 : ℚ) else 0) +
    (if metrics.momentum.mediumTerm > 70 then 3/2 else 0) +
    (if metrics.momentum.longTerm > 70 then 2 else 0) +
    (if metrics.volumeProfile.trend = .increasing then 1 else 0) +
    (if metrics.priceChange > 0 then min 2 metrics.priceChange else 0) -
    (if metrics.volatility > 1/5 then 1/2 else 0)
  let bearishScore :=
    (if metrics.momentum.shortTerm < 30 then (1 : ℚ) else 0) +
    (if metrics.momentum.mediumTerm < 30 then 3/2 else 0) +
    (if metrics.momentum.longTerm < 30 then 2 else 0) +
    (if metrics.volumeProfile.trend = .decreasing then 1 else 0) +
    (if metrics.priceChange < 0 then min 2 |metrics.priceChange| else 0) -
    (if metrics.volatility > 1/5 then 1/2 else 0)
  let netScore := bullishScore - bearishScore
  if netScore > 2 then
    { trend := .bullish
      reasons :=
        [TrendReason.uptrend] ++
        (if metrics.volumeProfile.trend = .increasing then [TrendReason.increasing_volume] else []) ++
        (if metrics.momentum.shortTerm > 70 then [TrendReason.short_term_momentum] else []) ++
        (if metrics.momentum.mediumTerm > 70 then [TrendReason.medium_term_momentum] else []) ++
        (if metrics.momentum.longTerm > 70 then [TrendReason.long_term_momentum] else []) }
  else if netScore < -2 then
    { trend := .bearish
      reasons :=
        [TrendReason.downtrend] ++
        (if metrics.volumeProfile.trend = .decreasing then [TrendReason.decreasing_volume] else []) ++
        (if metrics.momentum.shortTerm < 30 then [TrendReason.RSI_oversold] else []) }
  else
    { trend := .neutral, reasons := [TrendReason.neutral_trend, TrendReason.stable_volume] }

end MarketDataService

namespace BreakoutDetector

/-- `BreakoutDetector.calculateSMA` (`src/unnamed/part_013`, lines
716-719): arithmetic mean, `0` on the empty list. -/
def calculateSMA (values : List ℚ) : ℚ :=
  if values.length = 0 then 0 else values.sum / (values.length : ℚ)

/-- The Bollinger variance of `BreakoutDetector.calculateBollingerBands`
(`src/unnamed/part_013`, lines 721-738): population variance of the last
`BOLLINGER_PERIOD` closes around their mean. -/
def bollingerVariance (values : List ℚ) : ℚ :=
  let recentValues := values.drop (values.length - BOLLINGER_PERIOD)
  let sma := calculateSMA recentValues
  (recentValues.map (fun value => (value - sma) ^ 2)).sum / (BOLLINGER_PERIOD : ℚ)

/-- `BreakoutDetector.calculateBollingerBands` (`src/unnamed/part_013`,
lines 721-738): `sma ± BOLLINGER_STD * std` over the last
`BOLLINGER_PERIOD` closes.  `sq` is the `Math.sqrt` primitive, taken as a
parameter.  (The JavaScript throws when fewer than `BOLLINGER_PERIOD`
values are available; `detectBreakout` only calls this with at least
`BOLLINGER_PERIOD + 2` values, and this embedding returns zero bands in
the unreachable case.) -/
def calculateBollingerBands (sq : ℚ → ℚ) (values : List ℚ) : ℚ × ℚ × ℚ :=
  let recentValues := values.drop (values.length - BOLLINGER_PERIOD)
  if recentValues.length < BOLLINGER_PERIOD then (0, 0, 0)
  else
    let sma := calculateSMA recentValues
    let std := sq (bollingerVariance values)
    (sma + BOLLINGER_STD * std, sma, sma - BOLLINGER_STD * std)

/-- `BreakoutDetector.confirmTrendAlignment` (`src/unnamed/part_013`,
lines 673-697): the recent five-candle high must cross the upper band
(bullish), the recent low the lower band (bearish), with either accepted
when the trend is neutral. -/
def confirmTrendAlignment (highs lows : List ℚ) (upperBand lowerBand : ℚ)
    (trend : TrendType) : Bool :=
  let recentHigh := listMax (highs.drop (highs.length - 5))
  let recentLow := listMin (lows.drop (lows.length - 5))
  match trend with
  | .bullish => decide (recentHigh > upperBand)
  | .bearish => decide (recentLow < lowerBand)
  | .neutral => decide (recentHigh > upperBand) || decide (recentLow < lowerBand)

/-- `BreakoutDetector.checkVolatilityExpansion` (`src/unnamed/part_013`,
lines 699-704): max/min of the last five closes against the configured
expansion threshold. -/
def checkVolatilityExpansion (closes : List ℚ) : Bool :=
  let recentCloses := closes.drop (closes.length - 5)
  decide (listMax recentCloses / listMin recentCloses >
    BREAKOUT_CONFIG.volatilityExpansionThreshold)

/-- `BreakoutDetector.getBreakoutThreshold` (`src/unnamed/part_013`,
lines 706-715): bucket the percentage move by the ascending thresholds,
`null` (here `none`) below the smallest one. -/
def getBreakoutThreshold (percentageMove : ℚ) : Option BreakoutBucket :=
  if percentageMove ≥ BREAKOUT_CONFIG.thresholdExtreme then some .extreme
  else if percentageMove ≥ BREAKOUT_CONFIG.thresholdLarge then some .large
  else if percentageMove ≥ BREAKOUT_CONFIG.thresholdMedium then some .medium
  else if percentageMove ≥ BREAKOUT_CONFIG.thresholdShort then some .short
  else none

/-- `BreakoutDetector.detectBreakout` (`src/unnamed/part_013`, lines
588-668).  The mutable `lastBreakoutAlerts[symbol]` entry is passed in as
`lastAlert` and `Date.now()` as `now`; `sq` is the `Math.sqrt` primitive.
Returns the breakout alert or `none`; a returned alert is also what the
JavaScript stores back into `lastBreakoutAlerts[symbol]`. -/
def detectBreakout (sq : ℚ → ℚ) (lastAlert : Option BreakoutAlert) (now : ℚ)
    (symbol : String) (klines : List KlineData) (marketMetrics : MarketMetrics)
    (timeframe : String) : Option BreakoutAlert :=
  if klines.length < BOLLINGER_PERIOD + 2 then none
  else if (match lastAlert with
           | some alert => decide (now - alert.timestamp < BREAKOUT_CONFIG.cooldown)
           | none => false) then none
  else
    let closes := klines.map (·.close)
    let volumes := klines.map (·.volume)
    let highs := klines.map (·.high)
    let lows := klines.map (·.low)
    let bands := calculateBollingerBands sq closes
    let upper := bands.1
    let lower := bands.2.2
    let currentPrice := closes.getLastD 0
    let previousPrice := (closes.drop (closes.length - 2)).headD 0
    let volumeSlice := volumes.drop (volumes.length - VOLUME_MA_PERIOD)
    let volumeMA := calculateSMA volumeSlice
    let currentVolume := volumes.getLastD 0
    let trend := MarketDataService.determineTrend marketMetrics
    let priceBreakoutUp := decide (currentPrice > upper) && decide (previousPrice ≤ upper)
    let priceBreakoutDown := decide (currentPrice < lower) && decide (previousPrice ≥ lower)
    let volumeConfirmation :=
      decide (currentVolume > volumeMA * BREAKOUT_CONFIG.volumeMultiplier)
    let trendConfirmation := confirmTrendAlignment highs lows upper lower trend.trend
    let volatilityConfirmation := checkVolatilityExpansion closes
    let isValidBreakout :=
      (priceBreakoutUp || priceBreakoutDown) && volumeConfirmation &&
        trendConfirmation && volatilityConfirmation
    if isValidBreakout then
      let percentageMove := |(currentPrice - previousPrice) / previousPrice * 100|
      some
        { symbol := symbol
          timestamp := now
          breakoutType := getBreakoutThreshold percentageMove
          currentPrice := currentPrice
          priceAtBreakout := previousPrice
          percentageMove := percentageMove
          timeframe := timeframe
          direction := if priceBreakoutUp then .bullish else .bearish
          trend := trend.trend
          volumeProfile := { current := currentVolume, trend := marketMetrics.volumeProfile.trend }
          momentum := marketMetrics.momentum }
    else none

end BreakoutDetector

namespace AlertService

/-- One `handleAlerts` call for a fixed symbol, abstracted over the
detector outcomes: `now` is the `Date.now()` reading of the call,
`breakout` says whether `breakoutDetector.detectBreakout` returns an
alert, and `bullish` whether `MarketSignalDetector.detectBullishSignals`
returns a signal.  Both alert objects forwarded by `handleAlerts` carry
`timestamp: Date.now()` and have a `breakoutType` field, so `emitAlert`
stores their timestamp into `lastAlerts[symbol]` in either case. -/
structure AlertEvent where
  now : ℚ
  breakout : Bool
  bullish : Bool
  deriving DecidableEq, Inhabited

/-- `AlertService.handleAlerts` (`src/unnamed/part_013`, lines 12-60) for
one symbol: `lastAlertTs` is `lastAlerts[symbol]?.timestamp`.  Returns
the updated last-alert timestamp and whether an alert was forwarded to
the alert stream.  Within the cooldown window the call returns without
forwarding; otherwise the first available candidate (breakout first, then
bullish) is emitted and recorded. -/
def handleAlerts (cooldown : ℚ) (lastAlertTs : Option ℚ) (e : AlertEvent) :
    Option ℚ × Bool :=
  if (match lastAlertTs with
      | some t => decide (e.now - t < cooldown)
      | none => false) then (lastAlertTs, false)
  else if e.breakout then (some e.now, true)
  else if e.bullish then (some e.now, true)
  else (lastAlertTs, false)

/-- Sequential `handleAlerts` calls for one symbol: the final last-alert
timestamp and the `Date.now()` stamps of the forwarded alerts, in order. -/
def runAlerts (cooldown : ℚ) (lastAlertTs : Option ℚ) :
    List AlertEvent → Option ℚ × List ℚ
  | [] => (lastAlertTs, [])
  | e :: es =>
    let step := handleAlerts cooldown lastAlertTs e
    let rest := runAlerts cooldown step.1 es
    (rest.1, (if step.2 then [e.now] else []) ++ rest.2)

end AlertService

/-- Modelled from the spec (for comparison with the code only): the
return series of `volatilityPct` with the spec's "skip that return"
reading — a consecutive pair whose previous close is `0` contributes
nothing to the sample, so the sample is shorter. -/
def volatilityReturnsSpecSkip (log : ℚ → ℚ) (klines : List KlineData) : List ℚ :=
  (List.zipWith
    (fun prev kline =>
      if prev.close = 0 then none else some (log (kline.close / prev.close)))
    klines klines.tail).reduceOption

/-- Modelled from the spec (for comparison with the code only): the
per-candle drawdown series of `drawdownPct` — at each candle,
`(peak - low)/peak * 100` where `peak` is the running maximum of the
highs seen so far, seeded with the first candle's high and never reset. -/
def specDrawdowns (peak : ℚ) : List KlineData → List ℚ
  | [] => []
  | kline :: rest =>
    let p := max peak kline.high
    ((p - kline.low) / p * 100) :: specDrawdowns p rest

/-- A concrete 22-candle window for exercising `detectBreakout`: the
Bollinger window (last 20 closes) holds four closes at 99.8, fifteen at
100 and a final close at 100.8, so the mean is 100, the variance 1/25 and
the upper band 100.4; the final candle crosses it on 100x volume while
the move from the previous close is only 0.8%. -/
def subthresholdKlines : List KlineData :=
  [⟨0, 100, 100, 100, 100, 1⟩, ⟨1, 100, 100, 100, 100, 1⟩,
   ⟨2, 499/5, 499/5, 499/5, 499/5, 1⟩, ⟨3, 499/5, 499/5, 499/5, 499/5, 1⟩,
   ⟨4, 499/5, 499/5, 499/5, 499/5, 1⟩, ⟨5, 499/5, 499/5, 499/5, 499/5, 1⟩,
   ⟨6, 100, 100, 100, 100, 1⟩, ⟨7, 100, 100, 100, 100, 1⟩,
   ⟨8, 100, 100, 100, 100, 1⟩, ⟨9, 100, 100, 100, 100, 1⟩,
   ⟨10, 100, 100, 100, 100, 1⟩, ⟨11, 100, 100, 100, 100, 1⟩,
   ⟨12, 100, 100, 100, 100, 1⟩, ⟨13, 100, 100, 100, 100, 1⟩,
   ⟨14, 100, 100, 100, 100, 1⟩, ⟨15, 100, 100, 100, 100, 1⟩,
   ⟨16, 100, 100, 100, 100, 1⟩, ⟨17, 100, 100, 100, 100, 1⟩,
   ⟨18, 100, 100, 100, 100, 1⟩, ⟨19, 100, 100, 100, 100, 1⟩,
   ⟨20, 100, 100, 100, 100, 1⟩, ⟨21, 504/5, 504/5, 504/5, 504/5, 100⟩]

/-- Neutral market metrics (RSI 50 on all horizons, stable volume, no
price change): `MarketDataService.determineTrend` scores them 0 and
returns neutral, so `confirmTrendAlignment` accepts either crossing
direction. -/
def neutralMetrics : MarketMetrics :=
  ⟨0, 0, 0, 0, ⟨1, .stable⟩, ⟨50, 50, 50⟩⟩

namespace Lemmas

open MarketMetricsCalculator

/-- Every entry of the moving average of a list of non-negative values is
non-negative. -/
theorem movingAverage_nonneg (data : List ℚ) (period : ℕ)
    (hd : ∀ x ∈ data, 0 ≤ x) :
    ∀ y ∈ calculateMovingAverage data period, 0 ≤ y := by
  intro y hy
  simp only [calculateMovingAverage, List.mem_map, List.mem_range] at hy
  obtain ⟨j, -, rfl⟩ := hy
  apply div_nonneg
  · exact List.sum_nonneg fun x hx =>
      hd x (List.drop_subset j data (List.take_subset period _ hx))
  · exact_mod_cast Nat.zero_le period

/-- The `.pop() || 0` of a list of zeros is zero. -/
theorem getLast_getD_zero (l : List ℚ) (h : ∀ x ∈ l, x = 0) :
    l.getLast?.getD 0 = 0 := by
  cases hl : l.getLast? with
  | none => rfl
  | some a => simpa using h a (List.mem_of_mem_getLast? hl)

/-- The RSI average gain is non-negative. -/
theorem rsiAvgGain_nonneg (prices : List ℚ) (period : ℕ) :
    0 ≤ rsiAvgGain prices period := by
  unfold rsiAvgGain
  cases hl : (calculateMovingAverage (rsiGains prices) period).getLast? with
  | none => simp
  | some a =>
    have ha := List.mem_of_mem_getLast? hl
    have := movingAverage_nonneg (rsiGains prices) period ?_ a ha
    · simpa using this
    · intro x hx
      simp only [rsiGains, List.mem_map] at hx
      obtain ⟨c, -, rfl⟩ := hx
      split
      · linarith
      · norm_num

/-- The RSI average loss is non-negative. -/
theorem rsiAvgLoss_nonneg (prices : List ℚ) (period : ℕ) :
    0 ≤ rsiAvgLoss prices period := by
  unfold rsiAvgLoss
  cases hl : (calculateMovingAverage (rsiLosses prices) period).getLast? with
  | none => simp
  | some a =>
    have ha := List.mem_of_mem_getLast? hl
    have := movingAverage_nonneg (rsiLosses prices) period ?_ a ha
    · simpa using this
    · intro x hx
      simp only [rsiLosses, List.mem_map] at hx
      obtain ⟨c, -, rfl⟩ := hx
      split
      · linarith
      · norm_num

/-- The moving average of a too-short series has no entries. -/
theorem movingAverage_eq_nil (data : List ℚ) (period : ℕ)
    (h : data.length < period) : calculateMovingAverage data period = [] := by
  simp [calculateMovingAverage, Nat.sub_eq_zero_of_le h]

end Lemmas

/-- C6: for every price list and positive RSI period, `calculateRSI` stays
in `[0, 100]`; when the average loss is `0` it returns exactly `100`
through the guard branch, and in the other branch both divisors
(`avgLoss` and `1 + avgGain/avgLoss`) are non-zero, so no division by
zero occurs. -/
theorem calculateRSI_in_unit_range (prices : List ℚ) (period : ℕ)
    (_hperiod : 0 < period) :
    (0 ≤ MarketMetricsCalculator.calculateRSI prices period ∧
      MarketMetricsCalculator.calculateRSI prices period ≤ 100) ∧
    (MarketMetricsCalculator.rsiAvgLoss prices period = 0 →
      MarketMetricsCalculator.calculateRSI prices period = 100) ∧
    (MarketMetricsCalculator.rsiAvgLoss prices period ≠ 0 →
      0 < MarketMetricsCalculator.rsiAvgLoss prices period ∧
      1 + MarketMetricsCalculator.rsiAvgGain prices period /
          MarketMetricsCalculator.rsiAvgLoss prices period ≠ 0) := by
  have hG := Lemmas.rsiAvgGain_nonneg prices period
  have hL := Lemmas.rsiAvgLoss_nonneg prices period
  unfold MarketMetricsCalculator.calculateRSI
  by_cases h0 : MarketMetricsCalculator.rsiAvgLoss prices period = 0
  · simp [h0]
  · have hLpos : 0 < MarketMetricsCalculator.rsiAvgLoss prices period :=
      lt_of_le_of_ne hL (Ne.symm h0)
    have hRS : 0 ≤ MarketMetricsCalculator.rsiAvgGain prices period /
        MarketMetricsCalculator.rsiAvgLoss prices period := div_nonneg hG hL
    have hdenom : (1 : ℚ) ≤ 1 + MarketMetricsCalculator.rsiAvgGain prices period /
        MarketMetricsCalculator.rsiAvgLoss prices period := by linarith
    have hfrac_le : (100 : ℚ) / (1 + MarketMetricsCalculator.rsiAvgGain prices period /
        MarketMetricsCalculator.rsiAvgLoss prices period) ≤ 100 :=
      div_le_self (by norm_num) hdenom
    have hfrac_pos : (0 : ℚ) < 100 / (1 + MarketMetricsCalculator.rsiAvgGain prices period /
        MarketMetricsCalculator.rsiAvgLoss prices period) :=
      div_pos (by norm_num) (by linarith)
    refine ⟨⟨?_, ?_⟩, ?_, ?_⟩
    · simp only [h0, if_false]
      linarith
    · simp only [h0, if_false]
      linarith
    · intro hc
      exact absurd hc h0
    · intro _
      exact ⟨hLpos, by linarith⟩

/-- Witness for C6 at `prices = [1, 2, 3]`, `period = 14`. -/
theorem calculateRSI_in_unit_range_witness :
    0 < 14 ∧
    ((0 ≤ MarketMetricsCalculator.calculateRSI [1, 2, 3] 14 ∧
      MarketMetricsCalculator.calculateRSI [1, 2, 3] 14 ≤ 100) ∧
    (MarketMetricsCalculator.rsiAvgLoss [1, 2, 3] 14 = 0 →
      MarketMetricsCalculator.calculateRSI [1, 2, 3] 14 = 100) ∧
    (MarketMetricsCalculator.rsiAvgLoss [1, 2, 3] 14 ≠ 0 →
      0 < MarketMetricsCalculator.rsiAvgLoss [1, 2, 3] 14 ∧
      1 + MarketMetricsCalculator.rsiAvgGain [1, 2, 3] 14 /
          MarketMetricsCalculator.rsiAvgLoss [1, 2, 3] 14 ≠ 0)) :=
  ⟨by norm_num, calculateRSI_in_unit_range [1, 2, 3] 14 (by norm_num)⟩

/-- C10: for every price list no longer than the RSI period, both
moving-average windows are empty, both averages default to `0`, and
`calculateRSI` returns exactly `100` through the `avgLoss = 0` branch. -/
theorem calculateRSI_insufficient_history (prices : List ℚ) (period : ℕ)
    (_hperiod : 0 < period) (hlen : prices.length ≤ period) :
    MarketMetricsCalculator.rsiAvgGain prices period = 0 ∧
    MarketMetricsCalculator.rsiAvgLoss prices period = 0 ∧
    MarketMetricsCalculator.calculateRSI prices period = 100 := by
  have hch : (MarketMetricsCalculator.rsiChanges prices).length < period := by
    have hlen1 : (MarketMetricsCalculator.rsiChanges prices).length =
        min prices.length (prices.length - 1) := by
      simp [MarketMetricsCalculator.rsiChanges]
    omega
  have hG : MarketMetricsCalculator.rsiAvgGain prices period = 0 := by
    unfold MarketMetricsCalculator.rsiAvgGain
    rw [Lemmas.movingAverage_eq_nil]
    · rfl
    · simpa [MarketMetricsCalculator.rsiGains] using hch
  have hL : MarketMetricsCalculator.rsiAvgLoss prices period = 0 := by
    unfold MarketMetricsCalculator.rsiAvgLoss
    rw [Lemmas.movingAverage_eq_nil]
    · rfl
    · simpa [MarketMetricsCalculator.rsiLosses] using hch
  exact ⟨hG, hL, by simp [MarketMetricsCalculator.calculateRSI, hL]⟩

/-- The second component of the `calculateDrawdown` fold accumulates the
maximum of the accumulator and the per-candle drawdown series. -/
theorem Lemmas.drawdown_foldl_eq (klines : List KlineData) :
    ∀ (p a : ℚ), (klines.foldl MarketMetricsCalculator.drawdownStep (p, a)).2 =
      (specDrawdowns p klines).foldl max a := by
  induction klines with
  | nil => intro p a; rfl
  | cons k rest ih =>
    intro p a
    simp only [List.foldl_cons, specDrawdowns, MarketMetricsCalculator.drawdownStep]
    exact ih (max p k.high) (max a ((max p k.high - k.low) / max p k.high * 100))

/-- A left `max` fold is at least its seed. -/
theorem Lemmas.le_foldl_max (l : List ℚ) : ∀ a : ℚ, a ≤ l.foldl max a := by
  induction l with
  | nil => intro a; exact le_refl a
  | cons x rest ih =>
    intro a
    exact le_trans (le_max_left a x) (ih (max a x))

/-- C7: for windows of at least two candles whose highs are positive (and
whose candles satisfy the OHLC invariant `low ≤ high`), `calculateDrawdown`
is non-negative and equals the maximum over candles of
`(runningPeak - low)/runningPeak * 100`, the running peak being the
never-reset maximum of the highs seen so far (`specDrawdowns`). -/
theorem calculateDrawdown_spec (klines : List KlineData)
    (hlen : 2 ≤ klines.length)
    (hpos : ∀ k ∈ klines, 0 < k.high)
    (hlh : ∀ k ∈ klines, k.low ≤ k.high) :
    0 ≤ MarketMetricsCalculator.calculateDrawdown klines ∧
    MarketMetricsCalculator.calculateDrawdown klines =
      listMax (specDrawdowns ((klines.headD default).high) klines) := by
  match klines, hlen with
  | k0 :: k1 :: rest, _ =>
    have hfold := Lemmas.drawdown_foldl_eq (k0 :: k1 :: rest) k0.high 0
    have hdd0 : (max k0.high k0.high - k0.low) / max k0.high k0.high * 100 =
        (k0.high - k0.low) / k0.high * 100 := by rw [max_self]
    have h0pos : 0 < k0.high := hpos k0 (by simp)
    have h0le : k0.low ≤ k0.high := hlh k0 (by simp)
    have hdd0_nonneg : 0 ≤ (k0.high - k0.low) / k0.high * 100 := by
      apply mul_nonneg _ (by norm_num)
      exact div_nonneg (by linarith) (le_of_lt h0pos)
    have hcd : MarketMetricsCalculator.calculateDrawdown (k0 :: k1 :: rest) =
        (specDrawdowns k0.high (k0 :: k1 :: rest)).foldl max 0 := by
      unfold MarketMetricsCalculator.calculateDrawdown
      rw [if_neg (by simp)]
      exact hfold
    constructor
    · rw [hcd]
      exact Lemmas.le_foldl_max _ 0
    · rw [hcd]
      show (specDrawdowns k0.high (k0 :: k1 :: rest)).foldl max 0 =
        listMax (specDrawdowns ((k0 :: k1 :: rest).headD default).high (k0 :: k1 :: rest))
      simp only [List.headD_cons, specDrawdowns, listMax, List.foldl_cons, hdd0]
      rw [max_self k0.high]
      congr 1
      rw [max_eq_right hdd0_nonneg]

/-- Witness for C7 on a concrete two-candle window. -/
theorem calculateDrawdown_spec_witness :
    2 ≤ ([⟨0, 9, 10, 5, 9, 1⟩, ⟨1, 7, 8, 4, 7, 1⟩] : List KlineData).length ∧
    (∀ k ∈ ([⟨0, 9, 10, 5, 9, 1⟩, ⟨1, 7, 8, 4, 7, 1⟩] : List KlineData), 0 < k.high) ∧
    (∀ k ∈ ([⟨0, 9, 10, 5, 9, 1⟩, ⟨1, 7, 8, 4, 7, 1⟩] : List KlineData), k.low ≤ k.high) ∧
    (0 ≤ MarketMetricsCalculator.calculateDrawdown
        [⟨0, 9, 10, 5, 9, 1⟩, ⟨1, 7, 8, 4, 7, 1⟩] ∧
     MarketMetricsCalculator.calculateDrawdown [⟨0, 9, 10, 5, 9, 1⟩, ⟨1, 7, 8, 4, 7, 1⟩] =
       listMax (specDrawdowns
         ((([⟨0, 9, 10, 5, 9, 1⟩, ⟨1, 7, 8, 4, 7, 1⟩] : List KlineData).headD default).high)
         [⟨0, 9, 10, 5, 9, 1⟩, ⟨1, 7, 8, 4, 7, 1⟩])) :=
  ⟨by norm_num,
   by intro k hk; fin_cases hk <;> norm_num,
   by intro k hk; fin_cases hk <;> norm_num,
   calculateDrawdown_spec _ (by norm_num)
     (by intro k hk; fin_cases hk <;> norm_num)
     (by intro k hk; fin_cases hk <;> norm_num)⟩

/-- C9 (amended): the zero-previous-close guard of `calculateVolatility`
substitutes the value `0` into the return sample instead of skipping the
entry: the sample always has `klines.length - 1` entries (so the mean and
variance divisors are non-zero for any window of at least two candles),
and a pair whose previous close is `0` contributes the entry `0`. -/
theorem volatilityReturns_substitute_zero (log : ℚ → ℚ) (klines : List KlineData)
    (hlen : 2 ≤ klines.length) :
    (MarketMetricsCalculator.volatilityReturns log klines).length = klines.length - 1 ∧
    (MarketMetricsCalculator.volatilityReturns log klines).length ≠ 0 ∧
    (∀ k0 rest, klines = k0 :: rest → k0.close = 0 →
      MarketMetricsCalculator.volatilityReturns log klines = 0 :: MarketMetricsCalculator.volatilityReturns log rest) := by
  have hl : (MarketMetricsCalculator.volatilityReturns log klines).length =
      min klines.length (klines.length - 1) := by
    simp [MarketMetricsCalculator.volatilityReturns]
  refine ⟨by omega, by omega, ?_⟩
  rintro k0 rest rfl hk0
  cases rest with
  | nil => simp at hlen
  | cons k1 rest2 =>
    simp [MarketMetricsCalculator.volatilityReturns, hk0]

/-- Witness for C9's amended theorem on a three-candle window whose first
close is `0`. -/
theorem volatilityReturns_substitute_zero_witness :
    2 ≤ ([⟨0, 0, 0, 0, 0, 1⟩, ⟨1, 0, 0, 0, 2, 1⟩, ⟨2, 0, 0, 0, 4, 1⟩] : List KlineData).length ∧
    ((MarketMetricsCalculator.volatilityReturns (fun q => q)
        [⟨0, 0, 0, 0, 0, 1⟩, ⟨1, 0, 0, 0, 2, 1⟩, ⟨2, 0, 0, 0, 4, 1⟩]).length =
      ([⟨0, 0, 0, 0, 0, 1⟩, ⟨1, 0, 0, 0, 2, 1⟩, ⟨2, 0, 0, 0, 4, 1⟩] : List KlineData).length - 1 ∧
    (MarketMetricsCalculator.volatilityReturns (fun q => q)
        [⟨0, 0, 0, 0, 0, 1⟩, ⟨1, 0, 0, 0, 2, 1⟩, ⟨2, 0, 0, 0, 4, 1⟩]).length ≠ 0 ∧
    (∀ k0 rest,
      ([⟨0, 0, 0, 0, 0, 1⟩, ⟨1, 0, 0, 0, 2, 1⟩, ⟨2, 0, 0, 0, 4, 1⟩] : List KlineData) =
        k0 :: rest → k0.close = 0 →
      MarketMetricsCalculator.volatilityReturns (fun q => q)
          [⟨0, 0, 0, 0, 0, 1⟩, ⟨1, 0, 0, 0, 2, 1⟩, ⟨2, 0, 0, 0, 4, 1⟩] =
        0 :: MarketMetricsCalculator.volatilityReturns (fun q => q) rest)) :=
  ⟨by norm_num,
   volatilityReturns_substitute_zero (fun q => q)
     [⟨0, 0, 0, 0, 0, 1⟩, ⟨1, 0, 0, 0, 2, 1⟩, ⟨2, 0, 0, 0, 4, 1⟩] (by norm_num)⟩

/-- C9 counterexample: the computed return sample is not the
spec's skipped sample — for closes `0, 2, 4` the code produces the
two-entry sample `[0, log 2]` (the zero-previous-close return included as
the substitute value `0`), while skipping would produce the one-entry
sample `[log 2]`; instantiated at the identity stand-in for `log`. -/
theorem volatilityReturns_not_skipped_cx :
    MarketMetricsCalculator.volatilityReturns (fun q => q)
        [⟨0, 0, 0, 0, 0, 1⟩, ⟨1, 0, 0, 0, 2, 1⟩, ⟨2, 0, 0, 0, 4, 1⟩] ≠
      volatilityReturnsSpecSkip (fun q => q)
        [⟨0, 0, 0, 0, 0, 1⟩, ⟨1, 0, 0, 0, 2, 1⟩, ⟨2, 0, 0, 0, 4, 1⟩] ∧
    (MarketMetricsCalculator.volatilityReturns (fun q => q)
        [⟨0, 0, 0, 0, 0, 1⟩, ⟨1, 0, 0, 0, 2, 1⟩, ⟨2, 0, 0, 0, 4, 1⟩]).length = 2 ∧
    (volatilityReturnsSpecSkip (fun q => q)
        [⟨0, 0, 0, 0, 0, 1⟩, ⟨1, 0, 0, 0, 2, 1⟩, ⟨2, 0, 0, 0, 4, 1⟩]).length = 1 := by
  norm_num [MarketMetricsCalculator.volatilityReturns, volatilityReturnsSpecSkip,
    List.reduceOption, List.filterMap_cons]

/-- Witness for C10 at `prices = [1, 2, 3]`, `period = 14`. -/
theorem calculateRSI_insufficient_history_witness :
    0 < 14 ∧ ([(1 : ℚ), 2, 3].length ≤ 14) ∧
    (MarketMetricsCalculator.rsiAvgGain [1, 2, 3] 14 = 0 ∧
     MarketMetricsCalculator.rsiAvgLoss [1, 2, 3] 14 = 0 ∧
     MarketMetricsCalculator.calculateRSI [1, 2, 3] 14 = 100) :=
  ⟨by norm_num, by norm_num,
    calculateRSI_insufficient_history [1, 2, 3] 14 (by norm_num) (by norm_num)⟩

/-- The classification branch of `scoreTrend`, characterised by score
comparisons: bullish iff the bullish score exceeds 3 and is at least the
bearish score; bearish iff the bearish score exceeds 3 and strictly
exceeds the bullish score (ties above 3 go to the bullish branch, which
is checked first). -/
theorem Lemmas.scoreTrend_trend_char (m : MarketMetrics) (klines : List KlineData) :
    ((MarketSignalDetector.scoreTrend m klines).trend = TrendType.bullish ↔
      3 < (MarketSignalDetector.trendScoresOf m klines).1 ∧
      (MarketSignalDetector.trendScoresOf m klines).2 ≤
        (MarketSignalDetector.trendScoresOf m klines).1) ∧
    ((MarketSignalDetector.scoreTrend m klines).trend = TrendType.bearish ↔
      3 < (MarketSignalDetector.trendScoresOf m klines).2 ∧
      (MarketSignalDetector.trendScoresOf m klines).1 <
        (MarketSignalDetector.trendScoresOf m klines).2) := by
  set b := (MarketSignalDetector.trendScoresOf m klines).1 with hbdef
  set r := (MarketSignalDetector.trendScoresOf m klines).2 with hrdef
  have hmain : MarketSignalDetector.scoreTrend m klines =
      if b = max b (max r 0) ∧ b > 3 then
        { trend := .bullish
          reasons := TrendReasonDetector.detectBullishReasons m klines ++
            MarketSignalDetector.detectCandlestickPatterns klines }
      else if r = max b (max r 0) ∧ r > 3 then
        { trend := .bearish
          reasons := TrendReasonDetector.detectBearishReasons m klines ++
            MarketSignalDetector.detectCandlestickPatterns klines }
      else { trend := .neutral, reasons := TrendReasonDetector.detectNeutralReasons m } := by
    rw [MarketSignalDetector.scoreTrend]
  rw [hmain]
  split_ifs with h1 h2
  · obtain ⟨hmax, hgt⟩ := h1
    have hrb : r ≤ b := by
      have : max r 0 ≤ b := by
        rw [hmax]
        exact le_max_right _ _
      exact le_trans (le_max_left r 0) this
    constructor
    · simp only [true_iff, show Trend.trend ⟨.bullish, _⟩ = TrendType.bullish from rfl]
      exact ⟨hgt, hrb⟩
    · constructor
      · intro hfalse
        exact absurd hfalse (by simp)
      · rintro ⟨-, hlt⟩
        exact absurd hrb (not_le.mpr hlt)
  · obtain ⟨hmax, hgt⟩ := h2
    have hbr : b ≤ r := by
      conv_rhs => rw [hmax]
      exact le_max_left _ _
    have hbne : b ≠ r := by
      intro he
      exact h1 ⟨he.trans hmax, lt_of_lt_of_eq hgt he.symm⟩
    have hblt : b < r := lt_of_le_of_ne hbr hbne
    constructor
    · constructor
      · intro hfalse
        exact absurd hfalse (by simp)
      · rintro ⟨hb3, hrb⟩
        exact absurd hrb (not_le.mpr hblt)
    · simp only [true_iff, show Trend.trend ⟨.bearish, _⟩ = TrendType.bearish from rfl]
      exact ⟨hgt, hblt⟩
  · constructor
    · constructor
      · intro hfalse
        exact absurd hfalse (by simp)
      · rintro ⟨hb3, hrb⟩
        apply h1
        refine ⟨?_, hb3⟩
        have h0b : (0 : ℚ) ≤ b := by linarith
        rw [max_eq_left]
        exact max_le hrb h0b
    · constructor
      · intro hfalse
        exact absurd hfalse (by simp)
      · rintro ⟨hr3, hbr⟩
        apply h2
        refine ⟨?_, hr3⟩
        have h0r : (0 : ℚ) ≤ r := by linarith
        rw [max_comm b (max r 0), max_eq_left]
        · rw [max_eq_left h0r]
        · rw [max_eq_left h0r]
          exact le_of_lt hbr

/-- C4 (amended): for windows of at least two candles, `scoreTrend`
classifies bullish exactly when the bullish score strictly exceeds 3
(not `≥ 3`) and is at least the bearish score, and bearish exactly when
the bearish score strictly exceeds 3 and strictly exceeds the bullish
score; otherwise neutral.  The cutoff is strict and the two sides carry
separate non-negative-leaning accumulators compared against each other,
not a single net score against ±3. -/
theorem scoreTrend_strict_cutoff_char (m : MarketMetrics) (klines : List KlineData)
    (_hlen : 2 ≤ klines.length) :
    ((MarketSignalDetector.scoreTrend m klines).trend = TrendType.bullish ↔
      3 < (MarketSignalDetector.trendScoresOf m klines).1 ∧
      (MarketSignalDetector.trendScoresOf m klines).2 ≤
        (MarketSignalDetector.trendScoresOf m klines).1) ∧
    ((MarketSignalDetector.scoreTrend m klines).trend = TrendType.bearish ↔
      3 < (MarketSignalDetector.trendScoresOf m klines).2 ∧
      (MarketSignalDetector.trendScoresOf m klines).1 <
        (MarketSignalDetector.trendScoresOf m klines).2) :=
  Lemmas.scoreTrend_trend_char m klines

/-- C4 counterexample: with short-term RSI 80 and everything else flat,
the bullish score is exactly 3, yet `scoreTrend` classifies the window as
neutral, because the code requires `bullish > 3` (strict), not `≥ 3` as
the claim states. -/
theorem scoreTrend_score_three_neutral_cx :
    (MarketSignalDetector.trendScoresOf
        ⟨0, 0, 0, 0, ⟨0, .stable⟩, ⟨80, 50, 50⟩⟩
        [⟨0, 1, 1, 1, 1, 1⟩, ⟨1, 1, 1, 1, 1, 1⟩]).1 = 3 ∧
    (MarketSignalDetector.scoreTrend
        ⟨0, 0, 0, 0, ⟨0, .stable⟩, ⟨80, 50, 50⟩⟩
        [⟨0, 1, 1, 1, 1, 1⟩, ⟨1, 1, 1, 1, 1, 1⟩]).trend = TrendType.neutral := by
  constructor
  · simp only [MarketSignalDetector.trendScoresOf,
      MarketSignalDetector.detectCandlestickPatterns]
    norm_num
    simp
  · simp only [MarketSignalDetector.scoreTrend, MarketSignalDetector.trendScoresOf,
      MarketSignalDetector.detectCandlestickPatterns]
    norm_num
    simp

/-- Witness for C4's amended theorem on a concrete strongly bullish
window. -/
theorem scoreTrend_strict_cutoff_char_witness :
    2 ≤ ([⟨0, 1, 1, 1, 1, 1⟩, ⟨1, 1, 1, 1, 1, 1⟩] : List KlineData).length ∧
    (((MarketSignalDetector.scoreTrend
          ⟨0, 5, 0, 0, ⟨0, .increasing⟩, ⟨80, 70, 70⟩⟩
          [⟨0, 1, 1, 1, 1, 1⟩, ⟨1, 1, 1, 1, 1, 1⟩]).trend = TrendType.bullish ↔
        3 < (MarketSignalDetector.trendScoresOf
              ⟨0, 5, 0, 0, ⟨0, .increasing⟩, ⟨80, 70, 70⟩⟩
              [⟨0, 1, 1, 1, 1, 1⟩, ⟨1, 1, 1, 1, 1, 1⟩]).1 ∧
        (MarketSignalDetector.trendScoresOf
              ⟨0, 5, 0, 0, ⟨0, .increasing⟩, ⟨80, 70, 70⟩⟩
              [⟨0, 1, 1, 1, 1, 1⟩, ⟨1, 1, 1, 1, 1, 1⟩]).2 ≤
          (MarketSignalDetector.trendScoresOf
              ⟨0, 5, 0, 0, ⟨0, .increasing⟩, ⟨80, 70, 70⟩⟩
              [⟨0, 1, 1, 1, 1, 1⟩, ⟨1, 1, 1, 1, 1, 1⟩]).1) ∧
      ((MarketSignalDetector.scoreTrend
          ⟨0, 5, 0, 0, ⟨0, .increasing⟩, ⟨80, 70, 70⟩⟩
          [⟨0, 1, 1, 1, 1, 1⟩, ⟨1, 1, 1, 1, 1, 1⟩]).trend = TrendType.bearish ↔
        3 < (MarketSignalDetector.trendScoresOf
              ⟨0, 5, 0, 0, ⟨0, .increasing⟩, ⟨80, 70, 70⟩⟩
              [⟨0, 1, 1, 1, 1, 1⟩, ⟨1, 1, 1, 1, 1, 1⟩]).2 ∧
        (MarketSignalDetector.trendScoresOf
              ⟨0, 5, 0, 0, ⟨0, .increasing⟩, ⟨80, 70, 70⟩⟩
              [⟨0, 1, 1, 1, 1, 1⟩, ⟨1, 1, 1, 1, 1, 1⟩]).1 <
          (MarketSignalDetector.trendScoresOf
              ⟨0, 5, 0, 0, ⟨0, .increasing⟩, ⟨80, 70, 70⟩⟩
              [⟨0, 1, 1, 1, 1, 1⟩, ⟨1, 1, 1, 1, 1, 1⟩]).2)) :=
  ⟨by norm_num,
   scoreTrend_strict_cutoff_char
     ⟨0, 5, 0, 0, ⟨0, .increasing⟩, ⟨80, 70, 70⟩⟩
     [⟨0, 1, 1, 1, 1, 1⟩, ⟨1, 1, 1, 1, 1, 1⟩] (by norm_num)⟩

/-- Every consecutive delta of a constant price list is zero. -/
theorem Lemmas.rsiChanges_const (c : ℚ) :
    ∀ (prices : List ℚ), (∀ x ∈ prices, x = c) →
      ∀ y ∈ MarketMetricsCalculator.rsiChanges prices, y = 0
  | [] => by simp [MarketMetricsCalculator.rsiChanges]
  | [_] => by simp [MarketMetricsCalculator.rsiChanges]
  | a :: b :: t => by
    intro h y hy
    simp only [MarketMetricsCalculator.rsiChanges, List.tail_cons,
      List.zipWith_cons_cons, List.mem_cons] at hy
    rcases hy with rfl | hy
    · have ha : a = c := h a (by simp)
      have hb : b = c := h b (by simp)
      rw [ha, hb, sub_self]
    · exact Lemmas.rsiChanges_const c (b :: t)
        (fun x hx => h x (List.mem_cons_of_mem a hx)) y hy

/-- Every entry of the moving average of an all-zero list is zero. -/
theorem Lemmas.movingAverage_zero (data : List ℚ) (period : ℕ)
    (hd : ∀ x ∈ data, x = 0) :
    ∀ y ∈ MarketMetricsCalculator.calculateMovingAverage data period, y = 0 := by
  intro y hy
  simp only [MarketMetricsCalculator.calculateMovingAverage, List.mem_map,
    List.mem_range] at hy
  obtain ⟨j, -, rfl⟩ := hy
  have hsum : ((data.drop j).take period).sum = 0 :=
    List.sum_eq_zero fun x hx =>
      hd x (List.drop_subset j data (List.take_subset period _ hx))
  rw [hsum, zero_div]

/-- RSI of a constant price series is 100: all deltas are zero, so the
average loss is zero and the `avgLoss = 0` guard fires. -/
theorem Lemmas.calculateRSI_const (prices : List ℚ) (c : ℚ) (period : ℕ)
    (h : ∀ x ∈ prices, x = c) :
    MarketMetricsCalculator.calculateRSI prices period = 100 := by
  have hlosses : ∀ x ∈ MarketMetricsCalculator.rsiLosses prices, x = 0 := by
    intro x hx
    simp only [MarketMetricsCalculator.rsiLosses, List.mem_map] at hx
    obtain ⟨ch, hch, rfl⟩ := hx
    have : ch = 0 := Lemmas.rsiChanges_const c prices h ch hch
    simp [this]
  have hL : MarketMetricsCalculator.rsiAvgLoss prices period = 0 := by
    unfold MarketMetricsCalculator.rsiAvgLoss
    exact Lemmas.getLast_getD_zero _
      (Lemmas.movingAverage_zero _ period hlosses)
  simp [MarketMetricsCalculator.calculateRSI, hL]

/-- The `getLastD` of a non-empty list is one of its elements. -/
theorem Lemmas.getLastD_mem {α : Type} :
    ∀ (l : List α) (d : α), l ≠ [] → l.getLastD d ∈ l
  | [], _, h => absurd rfl h
  | [a], d, _ => by simp [List.getLastD]
  | a :: b :: t, d, _ => by
    have hmem : (b :: t).getLastD a ∈ b :: t :=
      Lemmas.getLastD_mem (b :: t) a (by simp)
    rw [List.getLastD_cons]
    exact List.mem_cons_of_mem a hmem

/-- C1 (amended): a strictly flat close series (every close the same
positive constant) yields `priceChangePct = 0`, but the Signal Detector
classifies the window as bullish, not neutral: all three RSI horizons
degenerate to 100 (the `avgLoss = 0` branch), which alone contributes a
bullish score of 6 > 3 that dominates every possible bearish
contribution. -/
theorem flat_closes_scoreTrend_bullish (log sq : ℚ → ℚ) (now : ℚ)
    (klines : List KlineData) (config : TimeframeConfig) (c : ℚ)
    (hlen : 2 ≤ klines.length) (hflat : ∀ k ∈ klines, k.close = c) (_hc : 0 < c) :
    MarketMetricsCalculator.calculatePriceChange klines = 0 ∧
    (MarketSignalDetector.scoreTrend
        (MarketMetricsCalculator.calculateMarketMetrics log sq now klines config)
        klines).trend = TrendType.bullish := by
  have hpc : MarketMetricsCalculator.calculatePriceChange klines = 0 := by
    match klines, hlen with
    | k0 :: k1 :: rest, _ =>
      unfold MarketMetricsCalculator.calculatePriceChange
      rw [if_neg (by simp)]
      have hhead : ((k0 :: k1 :: rest).headD default).close = c :=
        hflat k0 (by simp)
      have hlast : ((k0 :: k1 :: rest).getLastD default).close = c :=
        hflat _ (Lemmas.getLastD_mem (k0 :: k1 :: rest) default (by simp))
      rw [hhead, hlast]
      norm_num
  have hrsi : ∀ p : ℕ,
      MarketMetricsCalculator.calculateRSI (klines.map (·.close)) p = 100 := by
    intro p
    apply Lemmas.calculateRSI_const _ c
    intro x hx
    simp only [List.mem_map] at hx
    obtain ⟨k, hk, rfl⟩ := hx
    exact hflat k hk
  have hms : (MarketMetricsCalculator.calculateMarketMetrics log sq now klines
      config).momentum.shortTerm = 100 := by
    simp only [MarketMetricsCalculator.calculateMarketMetrics]
    exact hrsi 14
  have hmm : (MarketMetricsCalculator.calculateMarketMetrics log sq now klines
      config).momentum.mediumTerm = 100 := by
    simp only [MarketMetricsCalculator.calculateMarketMetrics]
    exact hrsi 30
  have hml : (MarketMetricsCalculator.calculateMarketMetrics log sq now klines
      config).momentum.longTerm = 100 := by
    simp only [MarketMetricsCalculator.calculateMarketMetrics]
    exact hrsi 50
  have hmpc : (MarketMetricsCalculator.calculateMarketMetrics log sq now klines
      config).priceChange = 0 := by
    simp only [MarketMetricsCalculator.calculateMarketMetrics]
    exact hpc
  refine ⟨hpc, ?_⟩
  rw [(Lemmas.scoreTrend_trend_char
    (MarketMetricsCalculator.calculateMarketMetrics log sq now klines config) klines).1]
  simp only [MarketSignalDetector.trendScoresOf, hms, hmm, hml, hmpc]
  norm_num
  split_ifs <;> norm_num

/-- C1 counterexample: a concrete strictly flat two-candle window (all
closes 1) has `priceChangePct = 0` but is classified bullish — not
neutral — by `scoreTrend` on the metrics computed from it.  The `log` and
`sq` stand-ins are constantly `0`, which agrees with `Math.log` and
`Math.sqrt` on every value they are actually applied to here (`log 1` and
`sqrt 0`; the annualisation factor is multiplied by zero either way). -/
theorem flat_series_classified_bullish_cx :
    MarketMetricsCalculator.calculatePriceChange
        [⟨0, 1, 1, 1, 1, 1⟩, ⟨1, 1, 1, 1, 1, 1⟩] = 0 ∧
    (MarketSignalDetector.scoreTrend
        (MarketMetricsCalculator.calculateMarketMetrics (fun _ => 0) (fun _ => 0) 0
          [⟨0, 1, 1, 1, 1, 1⟩, ⟨1, 1, 1, 1, 1, 1⟩]
          ⟨"5m", 300, 1/4, 6/5, 1, 1/2⟩)
        [⟨0, 1, 1, 1, 1, 1⟩, ⟨1, 1, 1, 1, 1, 1⟩]).trend ≠ TrendType.neutral ∧
    (MarketSignalDetector.scoreTrend
        (MarketMetricsCalculator.calculateMarketMetrics (fun _ => 0) (fun _ => 0) 0
          [⟨0, 1, 1, 1, 1, 1⟩, ⟨1, 1, 1, 1, 1, 1⟩]
          ⟨"5m", 300, 1/4, 6/5, 1, 1/2⟩)
        [⟨0, 1, 1, 1, 1, 1⟩, ⟨1, 1, 1, 1, 1, 1⟩]).trend = TrendType.bullish := by
  have hb : (MarketSignalDetector.scoreTrend
      (MarketMetricsCalculator.calculateMarketMetrics (fun _ => 0) (fun _ => 0) 0
        [⟨0, 1, 1, 1, 1, 1⟩, ⟨1, 1, 1, 1, 1, 1⟩]
        ⟨"5m", 300, 1/4, 6/5, 1, 1/2⟩)
      [⟨0, 1, 1, 1, 1, 1⟩, ⟨1, 1, 1, 1, 1, 1⟩]).trend = TrendType.bullish := by
    norm_num [MarketSignalDetector.scoreTrend, MarketSignalDetector.trendScoresOf,
      MarketSignalDetector.detectCandlestickPatterns,
      MarketMetricsCalculator.calculateMarketMetrics,
      MarketMetricsCalculator.calculatePriceChange,
      MarketMetricsCalculator.calculateVolatility,
      MarketMetricsCalculator.volatilityReturns,
      MarketMetricsCalculator.calculateVolumeProfile,
      MarketMetricsCalculator.getVolumeLookbackPeriods,
      MarketMetricsCalculator.calculateMovingAverage,
      MarketMetricsCalculator.calculateDrawdown,
      MarketMetricsCalculator.drawdownStep,
      MarketMetricsCalculator.calculateRSI,
      MarketMetricsCalculator.rsiAvgGain, MarketMetricsCalculator.rsiAvgLoss,
      MarketMetricsCalculator.rsiGains, MarketMetricsCalculator.rsiLosses,
      MarketMetricsCalculator.rsiChanges, List.range_succ]
    simp
    norm_num
  refine ⟨by norm_num [MarketMetricsCalculator.calculatePriceChange], ?_, hb⟩
  rw [hb]
  simp

/-- Witness for C1's amended theorem on a concrete flat window with close
5, arbitrary stand-ins for `log`/`sqrt`, and the 1h configuration. -/
theorem flat_closes_scoreTrend_bullish_witness :
    2 ≤ ([⟨0, 2, 2, 2, 5, 3⟩, ⟨1, 2, 2, 2, 5, 3⟩] : List KlineData).length ∧
    (∀ k ∈ ([⟨0, 2, 2, 2, 5, 3⟩, ⟨1, 2, 2, 2, 5, 3⟩] : List KlineData), k.close = 5) ∧
    (0 : ℚ) < 5 ∧
    (MarketMetricsCalculator.calculatePriceChange
        [⟨0, 2, 2, 2, 5, 3⟩, ⟨1, 2, 2, 2, 5, 3⟩] = 0 ∧
     (MarketSignalDetector.scoreTrend
        (MarketMetricsCalculator.calculateMarketMetrics (fun _ => 1) (fun _ => 1) 7
          [⟨0, 2, 2, 2, 5, 3⟩, ⟨1, 2, 2, 2, 5, 3⟩] ⟨"1h", 3600, 1, 3/2, 2, 1⟩)
        [⟨0, 2, 2, 2, 5, 3⟩, ⟨1, 2, 2, 2, 5, 3⟩]).trend = TrendType.bullish) :=
  ⟨by norm_num,
   by intro k hk; fin_cases hk <;> norm_num,
   by norm_num,
   flat_closes_scoreTrend_bullish (fun _ => 1) (fun _ => 1) 7
     [⟨0, 2, 2, 2, 5, 3⟩, ⟨1, 2, 2, 2, 5, 3⟩] ⟨"1h", 3600, 1, 3/2, 2, 1⟩ 5
     (by norm_num) (by intro k hk; fin_cases hk <;> norm_num) (by norm_num)⟩

/-- The trend-confidence value of `calculateTrendConfidence` exceeds one
half exactly when the bullish and bearish counts differ. -/
theorem Lemmas.confidence_gt_half_iff (B R : ℕ) (hT : ¬(B + R = 0)) :
    ((if ((B : ℚ)) / ((B + R : ℕ) : ℚ) > 1/2 then ((B : ℚ)) / ((B + R : ℕ) : ℚ)
      else 1 - ((B : ℚ)) / ((B + R : ℕ) : ℚ)) > 1/2) ↔ B ≠ R := by
  have hTpos : 0 < B + R := Nat.pos_of_ne_zero hT
  have hTQ : (0 : ℚ) < (B : ℚ) + (R : ℚ) := by
    have h0 : (0 : ℚ) < ((B + R : ℕ) : ℚ) := by exact_mod_cast hTpos
    push_cast at h0
    exact h0
  have hcast : ((B + R : ℕ) : ℚ) = (B : ℚ) + (R : ℚ) := by push_cast; ring
  rw [hcast]
  constructor
  · intro hc
    split_ifs at hc with hshare
    · rw [gt_iff_lt, lt_div_iff₀ hTQ] at hshare
      intro heq
      rw [heq] at hshare
      linarith
    · rw [gt_iff_lt, lt_sub_iff_add_lt] at hc
      have hlt : (B : ℚ) / ((B : ℚ) + (R : ℚ)) < 1/2 := by linarith
      rw [div_lt_iff₀ hTQ] at hlt
      intro heq
      rw [heq] at hlt
      linarith
  · intro hne
    rcases lt_or_gt_of_ne hne with hlt | hgt
    · have hshare : ¬((B : ℚ) / ((B : ℚ) + (R : ℚ)) > 1/2) := by
        rw [gt_iff_lt, lt_div_iff₀ hTQ, not_lt]
        have hc2 : (B : ℚ) < (R : ℚ) := by exact_mod_cast hlt
        linarith
      rw [if_neg hshare, gt_iff_lt, lt_sub_iff_add_lt]
      have hx : (B : ℚ) / ((B : ℚ) + (R : ℚ)) < 1/2 := by
        rw [div_lt_iff₀ hTQ]
        have hc2 : (B : ℚ) < (R : ℚ) := by exact_mod_cast hlt
        linarith
      linarith
    · have hshare : (B : ℚ) / ((B : ℚ) + (R : ℚ)) > 1/2 := by
        rw [gt_iff_lt, lt_div_iff₀ hTQ]
        have hc2 : (R : ℚ) < (B : ℚ) := by exact_mod_cast hgt
        linarith
      rw [if_pos hshare]
      exact hshare

/-- C2 (amended): `isValid` is exactly `trendConfidence > 0.5`, which
holds iff there is at least one non-neutral timeframe signal and the
bullish and bearish counts differ; no minimum confirming-timeframe count
(such as the claimed default of 2) is enforced, so a single non-neutral
timeframe already makes the aggregated signal valid. -/
theorem generateMarketSignal_isValid_char (signals : List TimeframeSignal)
    (symbol : String) (now : ℚ) (ms : MarketSignal)
    (h : MarketSignalDetector.generateMarketSignal signals symbol now = some ms) :
    ms.isValid = true ↔
      (0 < (MarketSignalDetector.signalsWithTrend signals .bullish).length +
          (MarketSignalDetector.signalsWithTrend signals .bearish).length ∧
       (MarketSignalDetector.signalsWithTrend signals .bullish).length ≠
          (MarketSignalDetector.signalsWithTrend signals .bearish).length) := by
  unfold MarketSignalDetector.generateMarketSignal at h
  split_ifs at h with hlen
  simp only [Option.some_inj] at h
  subst h
  show (match MarketSignalDetector.calculateTrendConfidence
      (MarketSignalDetector.signalsWithTrend signals .bullish)
      (MarketSignalDetector.signalsWithTrend signals .bearish) with
    | none => false
    | some c => decide (c > 1/2)) = true ↔ _
  unfold MarketSignalDetector.calculateTrendConfidence
  by_cases hT : (MarketSignalDetector.signalsWithTrend signals .bullish).length +
      (MarketSignalDetector.signalsWithTrend signals .bearish).length = 0
  · simp [hT]
  · simp only [hT, if_false, decide_eq_true_eq]
    rw [Lemmas.confidence_gt_half_iff _ _ hT]
    simp [Nat.pos_of_ne_zero hT]

/-- C2 counterexample: a single bullish timeframe signal yields an
aggregated `MarketSignal` with `isValid = true`, although only one
timeframe agrees with the majority trend — fewer than the claimed
confirmation minimum of 2. -/
theorem isValid_true_with_one_timeframe_cx :
    (MarketSignalDetector.generateMarketSignal
        [⟨"5m", 2, 0, 100, ⟨2, 1, ⟨.bullish, []⟩, 2⟩⟩] "ETHUSDT" 5).map
        MarketSignal.isValid = some true ∧
    MarketSignalDetector.determineOverallTrend
        [⟨"5m", 2, 0, 100, ⟨2, 1, ⟨.bullish, []⟩, 2⟩⟩] = TrendType.bullish ∧
    (MarketSignalDetector.signalsWithTrend
        [⟨"5m", 2, 0, 100, ⟨2, 1, ⟨.bullish, []⟩, 2⟩⟩] TrendType.bullish).length = 1 := by
  refine ⟨?_, ?_, ?_⟩
  · simp [MarketSignalDetector.generateMarketSignal,
      MarketSignalDetector.signalsWithTrend,
      MarketSignalDetector.calculateTrendConfidence,
      MarketSignalDetector.determineOverallTrend,
      MarketSignalDetector.determineVolatilityProfile,
      MarketSignalDetector.volatilityProfileLow,
      MarketSignalDetector.volatilityProfileMedium,
      MarketSignalDetector.volatilityProfileHigh, List.filter]
    norm_num
  · simp [MarketSignalDetector.determineOverallTrend,
      MarketSignalDetector.signalsWithTrend, List.filter]
  · simp [MarketSignalDetector.signalsWithTrend, List.filter]

/-- Witness for C2's amended theorem on the single bullish signal. -/
theorem generateMarketSignal_isValid_char_witness :
    MarketSignalDetector.generateMarketSignal
        [⟨"5m", 2, 0, 100, ⟨2, 1, ⟨.bullish, []⟩, 2⟩⟩] "BTCUSDT" 0 =
      some ⟨"BTCUSDT", 0, [⟨"5m", 2, 0, 100, ⟨2, 1, ⟨.bullish, []⟩, 2⟩⟩], 2, true,
        "extreme", some 1, .bullish⟩ ∧
    ((⟨"BTCUSDT", 0, [⟨"5m", 2, 0, 100, ⟨2, 1, ⟨.bullish, []⟩, 2⟩⟩], 2, true,
        "extreme", some 1, .bullish⟩ : MarketSignal).isValid = true ↔
      (0 < (MarketSignalDetector.signalsWithTrend
            [⟨"5m", 2, 0, 100, ⟨2, 1, ⟨.bullish, []⟩, 2⟩⟩] .bullish).length +
          (MarketSignalDetector.signalsWithTrend
            [⟨"5m", 2, 0, 100, ⟨2, 1, ⟨.bullish, []⟩, 2⟩⟩] .bearish).length ∧
       (MarketSignalDetector.signalsWithTrend
            [⟨"5m", 2, 0, 100, ⟨2, 1, ⟨.bullish, []⟩, 2⟩⟩] .bullish).length ≠
          (MarketSignalDetector.signalsWithTrend
            [⟨"5m", 2, 0, 100, ⟨2, 1, ⟨.bullish, []⟩, 2⟩⟩] .bearish).length)) :=
  have hgen : MarketSignalDetector.generateMarketSignal
      [⟨"5m", 2, 0, 100, ⟨2, 1, ⟨.bullish, []⟩, 2⟩⟩] "BTCUSDT" 0 =
    some ⟨"BTCUSDT", 0, [⟨"5m", 2, 0, 100, ⟨2, 1, ⟨.bullish, []⟩, 2⟩⟩], 2, true,
      "extreme", some 1, .bullish⟩ := by
    simp [MarketSignalDetector.generateMarketSignal,
      MarketSignalDetector.signalsWithTrend,
      MarketSignalDetector.calculateTrendConfidence,
      MarketSignalDetector.determineOverallTrend,
      MarketSignalDetector.determineVolatilityProfile,
      MarketSignalDetector.volatilityProfileLow,
      MarketSignalDetector.volatilityProfileMedium,
      MarketSignalDetector.volatilityProfileHigh, List.filter]
    norm_num
  ⟨hgen, generateMarketSignal_isValid_char _ "BTCUSDT" 0 _ hgen⟩

/-- C8 counterexample: recomputing the aggregated signal from the same
unchanged signal list and symbol at two different `Date.now()` readings
gives different outputs — the `timestamp` field follows the clock, so the
two results are not identical in every field. -/
theorem generateMarketSignal_timestamp_cx :
    MarketSignalDetector.generateMarketSignal
        [⟨"5m", 2, 0, 100, ⟨2, 1, ⟨.bullish, []⟩, 2⟩⟩] "BTCUSDT" 100 ≠
      MarketSignalDetector.generateMarketSignal
        [⟨"5m", 2, 0, 100, ⟨2, 1, ⟨.bullish, []⟩, 2⟩⟩] "BTCUSDT" 101 := by
  intro h
  have ht := congrArg (fun o => Option.map MarketSignal.timestamp o) h
  norm_num [MarketSignalDetector.generateMarketSignal] at ht

/-- C8 (amended): the aggregation is a deterministic pure function of the
signal list, the symbol and the clock reading: results at two different
clock readings agree on every field except `timestamp` (equal once the
timestamp is overwritten), and recomputation at the same reading is
literally identical. -/
theorem generateMarketSignal_deterministic_except_timestamp
    (signals : List TimeframeSignal) (symbol : String) (t1 t2 : ℚ) :
    (MarketSignalDetector.generateMarketSignal signals symbol t1).map
        (fun ms => { ms with timestamp := 0 }) =
      (MarketSignalDetector.generateMarketSignal signals symbol t2).map
        (fun ms => { ms with timestamp := 0 }) := by
  unfold MarketSignalDetector.generateMarketSignal
  split <;> rfl

/-- A forwarding `handleAlerts` call records the call's `Date.now()` as
the symbol's last-alert timestamp. -/
theorem Lemmas.handleAlerts_fw_updates (cooldown : ℚ) (st : Option ℚ)
    (e : AlertService.AlertEvent)
    (h : (AlertService.handleAlerts cooldown st e).2 = true) :
    (AlertService.handleAlerts cooldown st e).1 = some e.now := by
  unfold AlertService.handleAlerts at h ⊢
  split_ifs at h ⊢ <;> simp_all

/-- A non-forwarding `handleAlerts` call leaves the last-alert timestamp
unchanged. -/
theorem Lemmas.handleAlerts_no_fw_state (cooldown : ℚ) (st : Option ℚ)
    (e : AlertService.AlertEvent)
    (h : (AlertService.handleAlerts cooldown st e).2 = false) :
    (AlertService.handleAlerts cooldown st e).1 = st := by
  unfold AlertService.handleAlerts at h ⊢
  split_ifs at h ⊢ <;> simp_all

/-- After an alert at time `t0`, a run whose events all fall inside the
cooldown window starting at `t0` forwards nothing and leaves the state
unchanged. -/
theorem Lemmas.runAlerts_cooldown_silent (cooldown : ℚ) :
    ∀ (events : List AlertService.AlertEvent) (t0 : ℚ),
      (∀ e ∈ events, e.now < t0 + cooldown) →
      AlertService.runAlerts cooldown (some t0) events = (some t0, [])
  | [], _, _ => rfl
  | e :: es, t0, h => by
    have hcool : e.now - t0 < cooldown := by
      have := h e (by simp)
      linarith
    have hstep : AlertService.handleAlerts cooldown (some t0) e = (some t0, false) := by
      unfold AlertService.handleAlerts
      rw [if_pos]
      simp only [decide_eq_true_eq]
      exact hcool
    have hrest := Lemmas.runAlerts_cooldown_silent cooldown es t0
      (fun x hx => h x (List.mem_cons_of_mem e hx))
    unfold AlertService.runAlerts
    rw [hstep]
    simp [hrest]

/-- C5: over any sequence of candidate alert events for one symbol, if
every event happens less than the cooldown duration after the first
forwarded alert's timestamp, then that first alert is the only one
forwarded (every later candidate is suppressed), and any forwarding call
records its `Date.now()` as the symbol's last-alert timestamp. -/
theorem alertService_at_most_one_per_window (cooldown : ℚ)
    (st : Option ℚ) (events : List AlertService.AlertEvent) (t0 : ℚ)
    (tl : List ℚ)
    (hfw : (AlertService.runAlerts cooldown st events).2 = t0 :: tl)
    (hwin : ∀ e ∈ events, e.now < t0 + cooldown) :
    tl = [] ∧
    (∀ (st' : Option ℚ) (e : AlertService.AlertEvent),
      (AlertService.handleAlerts cooldown st' e).2 = true →
      (AlertService.handleAlerts cooldown st' e).1 = some e.now) := by
  refine ⟨?_, fun st' e h => Lemmas.handleAlerts_fw_updates cooldown st' e h⟩
  induction events generalizing st with
  | nil => simp [AlertService.runAlerts] at hfw
  | cons e es ih =>
    rw [show AlertService.runAlerts cooldown st (e :: es) =
      (let step := AlertService.handleAlerts cooldown st e
       let rest := AlertService.runAlerts cooldown step.1 es
       (rest.1, (if step.2 then [e.now] else []) ++ rest.2)) from rfl] at hfw
    by_cases hf : (AlertService.handleAlerts cooldown st e).2 = true
    · have hst : (AlertService.handleAlerts cooldown st e).1 = some e.now :=
        Lemmas.handleAlerts_fw_updates cooldown st e hf
      simp only [hf, if_true, hst] at hfw
      have ht0 : e.now = t0 := by
        have := congrArg (fun l => l.headD 0) hfw
        simpa using this
      have hrest := Lemmas.runAlerts_cooldown_silent cooldown es t0
        (fun x hx => hwin x (List.mem_cons_of_mem e hx))
      rw [ht0] at hfw
      rw [hrest] at hfw
      simpa using hfw.symm
    · have hf2 : (AlertService.handleAlerts cooldown st e).2 = false :=
        Bool.eq_false_iff.mpr hf
      have hst : (AlertService.handleAlerts cooldown st e).1 = st :=
        Lemmas.handleAlerts_no_fw_state cooldown st e hf2
      simp only [hf2, Bool.false_eq_true, if_false, hst, List.nil_append] at hfw
      exact ih st hfw (fun x hx => hwin x (List.mem_cons_of_mem e hx))

/-- Witness for C5: two breakout candidates 5 ms apart under a 10 ms
cooldown — only the first is forwarded. -/
theorem alertService_at_most_one_per_window_witness :
    (AlertService.runAlerts 10 none
        [⟨0, true, false⟩, ⟨5, false, true⟩]).2 = 0 :: ([] : List ℚ) ∧
    (∀ e ∈ ([⟨0, true, false⟩, ⟨5, false, true⟩] : List AlertService.AlertEvent),
      e.now < 0 + 10) ∧
    (([] : List ℚ) = [] ∧
     (∀ (st' : Option ℚ) (e : AlertService.AlertEvent),
       (AlertService.handleAlerts 10 st' e).2 = true →
       (AlertService.handleAlerts 10 st' e).1 = some e.now)) :=
  ⟨by norm_num [AlertService.runAlerts, AlertService.handleAlerts],
   by intro e he; fin_cases he <;> norm_num,
   alertService_at_most_one_per_window 10 none
     [⟨0, true, false⟩, ⟨5, false, true⟩] 0 []
     (by norm_num [AlertService.runAlerts, AlertService.handleAlerts])
     (by intro e he; fin_cases he <;> norm_num)⟩

/-- C3: on `subthresholdKlines` every breakout confirmation holds but the
0.8% move from the pre-breakout close is below the smallest threshold
(`thresholds.short` = 3), and `detectBreakout` nevertheless returns an
alert — with `breakoutType` equal to the `null` result of
`getBreakoutThreshold` — instead of returning `null` as the spec and the
declared non-nullable `BreakoutAlert.breakoutType` type require.  The
hypothesis pins the `Math.sqrt` parameter on the one variance value it is
applied to (`sqrt(1/25) = 1/5`). -/
theorem detectBreakout_subthreshold_emits_alert (sq : ℚ → ℚ)
    (hsq : sq (1/25) = 1/5) :
    BreakoutDetector.detectBreakout sq none 0 "BTCUSDT" subthresholdKlines
        neutralMetrics "5m" =
      some ⟨"BTCUSDT", 0, none, 504/5, 100, 4/5, "5m", .bullish, .neutral,
        ⟨100, .stable⟩, ⟨50, 50, 50⟩⟩ ∧
    (4/5 : ℚ) < BREAKOUT_CONFIG.thresholdShort := by
  constructor
  · simp [BreakoutDetector.detectBreakout, subthresholdKlines, neutralMetrics,
      BreakoutDetector.calculateBollingerBands, BreakoutDetector.bollingerVariance,
      BreakoutDetector.calculateSMA, BreakoutDetector.confirmTrendAlignment,
      BreakoutDetector.checkVolatilityExpansion, BreakoutDetector.getBreakoutThreshold,
      MarketDataService.determineTrend, BOLLINGER_PERIOD, BOLLINGER_STD,
      VOLUME_MA_PERIOD, BREAKOUT_CONFIG, listMax, listMin]
    norm_num [hsq]
    rw [abs_of_nonneg (by norm_num : (0:ℚ) ≤ 4/5)]
    norm_num
  · norm_num [BREAKOUT_CONFIG]

/-- Witness for C3's theorem with the constant `1/5` stand-in for
`Math.sqrt`, which satisfies the hypothesis at the one point used. -/
theorem detectBreakout_subthreshold_emits_alert_witness :
    ((fun _ : ℚ => (1/5 : ℚ)) (1/25) = 1/5) ∧
    (BreakoutDetector.detectBreakout (fun _ => 1/5) none 0 "BTCUSDT"
        subthresholdKlines neutralMetrics "5m" =
      some ⟨"BTCUSDT", 0, none, 504/5, 100, 4/5, "5m", .bullish, .neutral,
        ⟨100, .stable⟩, ⟨50, 50, 50⟩⟩ ∧
     (4/5 : ℚ) < BREAKOUT_CONFIG.thresholdShort) :=
  ⟨rfl, detectBreakout_subthreshold_emits_alert (fun _ => 1/5) rfl⟩
